import Mathlib

/-!
Shallow embedding of `src/botlib/botlib.py` (single-file Telegram webhook bot).

External effects (HTTP calls to the Telegram API, filesystem writes, the
PostgreSQL insert) are modelled by an explicit environment `Env` that fixes
the outcome of every external call, and by an explicit state `St` carrying
the in-memory media cache together with a trace of observable events.
Python exceptions are modelled with `Except String`: every embedded function
returns its result paired with the state reached so far, so that side
effects performed before an exception are preserved, exactly as in Python.
-/

namespace Botlib

/-! ### Python string primitives used by the source -/

/-- Model of Python `str.startswith` on explicit character lists. -/
def listStartsWith : List Char → List Char → Bool
  | _, [] => true
  | [], _ :: _ => false
  | a :: as, b :: bs => a = b && listStartsWith as bs

/-- Model of Python `s.startswith(pat)`. -/
def strStartsWith (s pat : String) : Bool :=
  listStartsWith s.data pat.data

/-- Model of Python `s.endswith(pat)`. -/
def strEndsWith (s pat : String) : Bool :=
  listStartsWith s.data.reverse pat.data.reverse

/-- Whitespace characters stripped by Python `str.strip()`. -/
def isPySpace (c : Char) : Bool :=
  c = ' ' || c = '\t' || c = '\n' || c = '\r' || c = '\x0b' || c = '\x0c'

/-- Model of Python `str.strip()`. -/
def pyStrip (s : String) : String :=
  String.mk (((s.data.dropWhile isPySpace).reverse.dropWhile isPySpace).reverse)

/-- Model of Python `s.replace(old, new)` for a one-character pattern. -/
def pyReplaceChar (s : String) (old new : Char) : String :=
  String.mk (s.data.map (fun c => if c = old then new else c))

/-- The decimal digit characters. -/
def digitCharsList : List Char := ['0', '1', '2', '3', '4', '5', '6', '7', '8', '9']

/-- The decimal digit character for `d % 10`. -/
def decDigit (d : Nat) : Char :=
  digitCharsList.getD (d % 10) '0'

/-- Fuel-driven accumulator loop producing the decimal digits of `n`. -/
def natCharsAux : Nat → Nat → List Char → List Char
  | 0, _, acc => acc
  | _ + 1, 0, acc => acc
  | fuel + 1, n + 1, acc => natCharsAux fuel ((n + 1) / 10) (decDigit ((n + 1) % 10) :: acc)

/-- Decimal digit characters of a natural number, modelling Python `str(n)`. -/
def natChars (n : Nat) : List Char :=
  if n = 0 then ['0'] else natCharsAux (n + 1) n []

/-- Decimal string of a natural number, modelling Python `str(n)`. -/
def natStr (n : Nat) : String :=
  String.mk (natChars n)

/-- Model of Python `os.path.basename`: everything after the last slash. -/
def os_path_basename (p : String) : String :=
  String.mk ((p.data.reverse.takeWhile (fun c => c ≠ '/')).reverse)

/-- Model of Python `os.path.join` for two components. -/
def os_path_join (a b : String) : String :=
  if strStartsWith b "/" then b
  else if a = "" then b
  else if strEndsWith a "/" then a ++ b
  else a ++ "/" ++ b

/-! ### Data model: updates, cache entries, observable events, state -/

/-- One element of a Telegram `PhotoSize` array, as read by the source. -/
structure TPhotoSize where
  file_id : Option String
deriving DecidableEq, Repr

/-- A Telegram video descriptor, as read by the source. -/
structure TVideo where
  file_id : Option String
deriving DecidableEq, Repr

/-- A Telegram user object, as read by the source. -/
structure TUser where
  id : Option Int
deriving DecidableEq, Repr

/-- A Telegram chat object, as read by the source. -/
structure TChat where
  id : Option Int
deriving DecidableEq, Repr

/-- A Telegram message, restricted to the keys the source reads. -/
structure TMessage where
  msgFrom : Option TUser
  chat : Option TChat
  photo : Option (List TPhotoSize)
  video : Option TVideo
  text : Option String
deriving DecidableEq, Repr

/-- A callback query, restricted to the keys the source reads. -/
structure TCallbackQuery where
  fromId : Option Int
  cbData : Option String
deriving DecidableEq, Repr

/-- An inbound update envelope, restricted to the keys the source reads. -/
structure TUpdate where
  message : Option TMessage
  edited_message : Option TMessage
  callback_query : Option TCallbackQuery
deriving DecidableEq, Repr

/-- One value of the in-memory `media_cache` dictionary. -/
structure CacheEntry where
  dataBytes : List Nat
  user_id : Option Int
  mtype : String
  filename : String
  ts : String
deriving DecidableEq, Repr

/-- One button of an inline keyboard. -/
structure InlineBtn where
  btnText : String
  callback_data : String
deriving DecidableEq, Repr

/-- Observable events emitted while processing an update. -/
inductive Ev where
  | logged (msg : String)
  | sendAttempt (chat : Option Int) (text : String)
  | sent (chat : Option Int) (text : String)
  | getFileAttempt (file_id : Option String)
  | downloadAttempt (file_path : String)
  | cachePut (file_id : Option String)
  | fsWriteAttempt (dest : String)
  | fsWrote (dest : String)
  | dbAttempt (user : Option Int) (file_id : Option String) (mtype : String) (fname : Option String)
  | dbResult (ok : Bool)
deriving DecidableEq, Repr

/-- Mutable program state: the media cache plus the event trace so far. -/
structure St where
  cache : List (Option String × CacheEntry)
  trace : List Ev
deriving DecidableEq, Repr

/-- Append one event to the trace. -/
def push (s : St) (e : Ev) : St :=
  { s with trace := s.trace ++ [e] }

/-- Python `dict` insert-or-overwrite, preserving insertion order. -/
def dictInsert (c : List (Option String × CacheEntry)) (k : Option String)
    (v : CacheEntry) : List (Option String × CacheEntry) :=
  if c.any (fun kv => kv.1 = k) then
    c.map (fun kv => if kv.1 = k then (k, v) else kv)
  else c ++ [(k, v)]

/-- Environment fixing the outcome of every external call and every piece of
configuration read by the source. -/
structure Env where
  mediaDir : String
  nowEpoch : Nat
  nowIso : String
  databaseUrl : String
  psycopg2Ok : Bool
  dbInsertOk : Bool
  fsWriteOk : String → Bool
  sendOk : Option Int → String → Bool
  getFileRes : Option String → Except String String
  downloadRes : String → Except String (List Nat)

/-! ### Transport client and sink embeddings -/

/-- Embedding of `send_message` (botlib.py line 126): one outbound
`sendMessage` call whose outcome is fixed by the environment; a failing call
raises, exactly like `_api_post`. -/
def send_message (env : Env) (chat_id : Option Int) (text : String)
    (reply_markup : Option (List (List InlineBtn))) (s : St) :
    Except String Unit × St :=
  let s1 := push s (Ev.sendAttempt chat_id text)
  let _ := reply_markup
  if env.sendOk chat_id text then (Except.ok (), push s1 (Ev.sent chat_id text))
  else (Except.error "send_message failed", s1)

/-- Embedding of `get_file_path` (line 195): resolve a file id via `getFile`;
failure of the call, or a missing `file_path` in the response, raises. -/
def get_file_path (env : Env) (file_id : Option String) (s : St) :
    Except String String × St :=
  let s1 := push s (Ev.getFileAttempt file_id)
  match env.getFileRes file_id with
  | Except.ok fp => (Except.ok fp, s1)
  | Except.error e => (Except.error e, s1)

/-- Embedding of `download_file_by_path` (line 209): fetch raw bytes from the
file-serving origin; a non-2xx response raises. -/
def download_file_by_path (env : Env) (file_path : String) (s : St) :
    Except String (List Nat) × St :=
  let s1 := push s (Ev.downloadAttempt file_path)
  match env.downloadRes file_path with
  | Except.ok bs => (Except.ok bs, s1)
  | Except.error e => (Except.error e, s1)

/-- Destination path composed by `save_media_to_fs` (line 231):
`os.path.join(MEDIA_DIR, f"[int(time.time())]_[safe_name]")` where
`safe_name` replaces `/` and `\` by `_`. -/
def fs_dest (mediaDir : String) (nowEpoch : Nat) (filename : String) : String :=
  os_path_join mediaDir
    (natStr nowEpoch ++ "_" ++ pyReplaceChar (pyReplaceChar filename '/' '_') '\\' '_')

/-- Embedding of `save_media_to_fs` (line 225): write the buffer to the
composed destination; a disk failure raises (IOError). -/
def save_media_to_fs (env : Env) (file_bytes : List Nat) (filename : String)
    (s : St) : Except String String × St :=
  let _ := file_bytes
  let dest := fs_dest env.mediaDir env.nowEpoch filename
  let s1 := push s (Ev.fsWriteAttempt dest)
  if env.fsWriteOk dest then (Except.ok dest, push s1 (Ev.fsWrote dest))
  else (Except.error "IOError", s1)

/-- Embedding of `save_media_to_db` (line 238): returns `False` when the
database is unconfigured, when the driver is unavailable, or when the insert
throws; returns `True` only on a successful insert. It never raises. -/
def save_media_to_db (env : Env) (file_bytes : List Nat) (user_id : Option Int)
    (file_id : Option String) (media_type : String) (file_name : Option String)
    (s : St) : Except String Bool × St :=
  let _ := file_bytes
  let s1 := push s (Ev.dbAttempt user_id file_id media_type file_name)
  if env.databaseUrl = "" then
    (Except.ok false, push s1 (Ev.logged "DATABASE_URL not set, skipping DB save"))
  else if env.psycopg2Ok = false then
    (Except.ok false, push s1 (Ev.logged "psycopg2 not installed, skipping DB save"))
  else if env.dbInsertOk then
    (Except.ok true, push s1 (Ev.dbResult true))
  else
    (Except.ok false, push (push s1 (Ev.logged "Failed to save media to DB")) (Ev.dbResult false))

/-- Embedding of `user_exists` (line 282): the source is a placeholder that
always returns `True`. -/
def user_exists (user_id : Option Int) : Bool :=
  let _ := user_id
  true

/-! ### Media send helpers (`send_photo`, `send_video`) -/

/-- The media payload actually attached to a `sendPhoto`/`sendVideo` call. -/
inductive MediaPayload where
  | fromBytes (content : List Nat) (uploadName : String)
  | fromPath (path : String)
deriving DecidableEq, Repr

/-- The outbound request built by `send_photo`/`send_video`, recording which
filesystem path, if any, was opened while building it. -/
structure ApiSendReq where
  method : String
  chat_id : Int
  payload : MediaPayload
  caption : Option String
  openedPath : Option String
deriving DecidableEq, Repr

/-- Embedding of `send_photo` (line 146): bytes take priority when both are
given (`if photo_bytes is not None`); the path branch is taken only when the
bytes are absent and the path is truthy; otherwise a `ValueError` is raised. -/
def send_photo (chat_id : Int) (photo_path : Option String)
    (photo_bytes : Option (List Nat)) (caption : Option String) :
    Except String ApiSendReq :=
  match photo_bytes with
  | some b =>
      Except.ok ⟨"sendPhoto", chat_id, MediaPayload.fromBytes b "photo.jpg", caption, none⟩
  | none =>
      match photo_path with
      | some p =>
          if p ≠ "" then
            Except.ok ⟨"sendPhoto", chat_id, MediaPayload.fromPath p, caption, some p⟩
          else Except.error "ValueError: Either photo_path or photo_bytes must be provided"
      | none => Except.error "ValueError: Either photo_path or photo_bytes must be provided"

/-- Embedding of `send_video` (line 171), identical in structure to
`send_photo`. -/
def send_video (chat_id : Int) (video_path : Option String)
    (video_bytes : Option (List Nat)) (caption : Option String) :
    Except String ApiSendReq :=
  match video_bytes with
  | some b =>
      Except.ok ⟨"sendVideo", chat_id, MediaPayload.fromBytes b "video.mp4", caption, none⟩
  | none =>
      match video_path with
      | some p =>
          if p ≠ "" then
            Except.ok ⟨"sendVideo", chat_id, MediaPayload.fromPath p, caption, some p⟩
          else Except.error "ValueError: Either video_path or video_bytes must be provided"
      | none => Except.error "ValueError: Either video_path or video_bytes must be provided"

/-! ### Update dispatcher (`process_update`, lines 307-411) -/

/-- The generic photo-error notice sent at line 367. -/
def errPhotoText : String := "Ошибка при обработке фото."

/-- The generic video-error notice sent at line 389. -/
def errVideoText : String := "Ошибка при обработке видео."

/-- The acknowledgment sent at line 364 after a photo is persisted. -/
def photoAckText (fsname : String) : String :=
  "Фото получено и сохранено (файл: " ++ fsname ++ ")"

/-- The acknowledgment sent at line 386 after a video is persisted. -/
def videoAckText (fsname : String) : String :=
  "Видео получено и сохранено (файл: " ++ fsname ++ ")"

/-- The inline keyboard attached to the `/start` reply (lines 396-401). -/
def startKb : List (List InlineBtn) :=
  [[⟨"Помощь", "help"⟩], [⟨"Посмотреть медиа (cache)", "list_cache"⟩]]

/-- The `/start` greeting (line 402). -/
def startText : String := "Привет! Я готов принимать медиа. Отправь фото или видео."

/-- Model of Python `"\n".join(keys)` over cache keys: raises `TypeError`
(returns `none`) when some key is `None` rather than a string. -/
def optJoinKeys : List (Option String) → Option String
  | [] => some ""
  | [some k] => some k
  | some k :: rest => (optJoinKeys rest).map (fun r => k ++ "\n" ++ r)
  | none :: _ => none

/-- Body of the inner `try` of the photo branch (lines 348-364): resolve,
download, cache, filesystem write, database write, acknowledgment. Any raise
aborts the rest of this chain. -/
def photo_inner (env : Env) (user_id chat_id : Option Int)
    (file_id : Option String) (s : St) : Except String Unit × St :=
  match get_file_path env file_id s with
  | (Except.error e, s1) => (Except.error e, s1)
  | (Except.ok file_path, s1) =>
    match download_file_by_path env file_path s1 with
    | (Except.error e, s2) => (Except.error e, s2)
    | (Except.ok file_bytes, s2) =>
      let fname := os_path_basename file_path
      let s3 : St :=
        { cache := dictInsert s2.cache file_id ⟨file_bytes, user_id, "photo", fname, env.nowIso⟩,
          trace := s2.trace ++ [Ev.cachePut file_id] }
      match save_media_to_fs env file_bytes fname s3 with
      | (Except.error e, s4) => (Except.error e, s4)
      | (Except.ok fs_path, s4) =>
        match save_media_to_db env file_bytes user_id file_id "photo" (some fname) s4 with
        | (Except.error e, s5) => (Except.error e, s5)
        | (Except.ok _dbOk, s5) =>
          send_message env chat_id (photoAckText (os_path_basename fs_path)) none s5

/-- The photo branch of `process_update` (lines 341-367): pick the last
photo variant, run the pipeline, and on failure send the generic
photo-error notice (that send itself may raise). -/
def photo_section (env : Env) (user_id chat_id : Option Int) (message : TMessage)
    (s : St) : Except String Unit × St :=
  match message.photo with
  | none => (Except.ok (), s)
  | some photos =>
    match photos.getLast? with
    | none => (Except.ok (), s)
    | some largest =>
      let s1 := push s (Ev.logged "Incoming photo")
      match photo_inner env user_id chat_id largest.file_id s1 with
      | (Except.ok _, s2) => (Except.ok (), s2)
      | (Except.error e, s2) =>
        send_message env chat_id errPhotoText none
          (push s2 (Ev.logged ("Error processing photo: " ++ e)))

/-- Body of the inner `try` of the video branch (lines 373-386). -/
def video_inner (env : Env) (user_id chat_id : Option Int)
    (file_id : Option String) (s : St) : Except String Unit × St :=
  match get_file_path env file_id s with
  | (Except.error e, s1) => (Except.error e, s1)
  | (Except.ok file_path, s1) =>
    match download_file_by_path env file_path s1 with
    | (Except.error e, s2) => (Except.error e, s2)
    | (Except.ok file_bytes, s2) =>
      let fname := os_path_basename file_path
      let s3 : St :=
        { cache := dictInsert s2.cache file_id ⟨file_bytes, user_id, "video", fname, env.nowIso⟩,
          trace := s2.trace ++ [Ev.cachePut file_id] }
      match save_media_to_fs env file_bytes fname s3 with
      | (Except.error e, s4) => (Except.error e, s4)
      | (Except.ok fs_path, s4) =>
        match save_media_to_db env file_bytes user_id file_id "video" (some fname) s4 with
        | (Except.error e, s5) => (Except.error e, s5)
        | (Except.ok _dbOk, s5) =>
          send_message env chat_id (videoAckText (os_path_basename fs_path)) none s5

/-- The video branch of `process_update` (lines 369-389). -/
def video_section (env : Env) (user_id chat_id : Option Int) (message : TMessage)
    (s : St) : Except String Unit × St :=
  match message.video with
  | none => (Except.ok (), s)
  | some video =>
    let s1 := push s (Ev.logged "Incoming video")
    match video_inner env user_id chat_id video.file_id s1 with
    | (Except.ok _, s2) => (Except.ok (), s2)
    | (Except.error e, s2) =>
      send_message env chat_id errVideoText none
        (push s2 (Ev.logged ("Error processing video: " ++ e)))

/-- The text branch of `process_update` (lines 391-409): `/start`,
`/list_cache`, or verbatim echo of the stripped text. -/
def text_section (env : Env) (user_id chat_id : Option Int) (message : TMessage)
    (s : St) : Except String Unit × St :=
  let _ := user_id
  match message.text with
  | none => (Except.ok (), s)
  | some t0 =>
    let text := pyStrip t0
    let s1 := push s (Ev.logged "Text message")
    if strStartsWith text "/start" then
      send_message env chat_id startText (some startKb) s1
    else if strStartsWith text "/list_cache" then
      let keys := s1.cache.map (fun kv => kv.1)
      if keys.isEmpty then
        send_message env chat_id ("Cached file_ids (" ++ natStr keys.length ++ "):\n" ++ "нет") none s1
      else
        match optJoinKeys keys with
        | some joined =>
            send_message env chat_id ("Cached file_ids (" ++ natStr keys.length ++ "):\n" ++ joined) none s1
        | none => (Except.error "TypeError: sequence item: expected str instance", s1)
    else
      send_message env chat_id ("Вы написали: " ++ text) none s1

/-- Selection `update.get("message") or update.get("edited_message")`
(line 315). -/
def getMessage (u : TUpdate) : Option TMessage :=
  match u.message with
  | some m => some m
  | none => u.edited_message

/-- User id extracted via `message.get("from", ...).get("id")` (lines 325-326). -/
def userIdOf (message : TMessage) : Option Int :=
  match message.msgFrom with
  | some u => u.id
  | none => none

/-- Chat id extracted via `message.get("chat", ...).get("id")` (lines 327-328). -/
def chatIdOf (message : TMessage) : Option Int :=
  match message.chat with
  | some c => c.id
  | none => none

/-- The video-then-text remainder of the dispatch sequence, run after the
photo branch has finished. -/
def media_and_text_tail (env : Env) (user_id chat_id : Option Int)
    (message : TMessage) (s : St) : Except String Unit × St :=
  match video_section env user_id chat_id message s with
  | (Except.error e, s2) => (Except.error e, s2)
  | (Except.ok _, s2) => text_section env user_id chat_id message s2

/-- Dispatch of a message: photo branch, then video branch, then text branch
(lines 341-409); an uncaught raise in one branch aborts the later branches. -/
def dispatch_msg (env : Env) (user_id chat_id : Option Int) (message : TMessage)
    (s : St) : Except String Unit × St :=
  match photo_section env user_id chat_id message s with
  | (Except.error e, s1) => (Except.error e, s1)
  | (Except.ok _, s1) => media_and_text_tail env user_id chat_id message s1

/-- Body of the outer `try` of `process_update` (lines 314-409). -/
def dispatch_body (env : Env) (u : TUpdate) (s : St) : Except String Unit × St :=
  match getMessage u with
  | none =>
    match u.callback_query with
    | some _cb => (Except.ok (), push s (Ev.logged "Received callback_query"))
    | none => (Except.ok (), s)
  | some message =>
    let user_id := userIdOf message
    let chat_id := chatIdOf message
    if user_exists user_id then
      dispatch_msg env user_id chat_id message s
    else
      let s1 := push s (Ev.logged "User not found in DB (placeholder). Ignoring message.")
      match send_message env chat_id
          "Вы не зарегистрированы в сервисе. Пожалуйста, зарегистрируйтесь." none s1 with
      | (Except.ok _, s2) => (Except.ok (), s2)
      | (Except.error _, s2) => (Except.ok (), s2)

/-- The top-level `try`/`except` of `process_update` (lines 313, 410-411):
an error from the dispatch body is logged, never re-raised. -/
def finalize_top (r : Except String Unit × St) : Except String Unit × St :=
  match r with
  | (Except.ok _, s) => (Except.ok (), s)
  | (Except.error e, s) =>
      (Except.ok (), push s (Ev.logged ("Unhandled exception in process_update: " ++ e)))

/-- Embedding of `process_update` (line 307). -/
def process_update (env : Env) (u : TUpdate) (s : St) : Except String Unit × St :=
  finalize_top (dispatch_body env u (push s (Ev.logged "Processing update")))

/-! ### Webhook endpoint (`webhook_endpoint`, lines 418-451) -/

/-- Python truthiness of an optional string: `None` and `""` are falsy. -/
def truthyStr (o : Option String) : Bool :=
  match o with
  | none => false
  | some t => t ≠ ""

/-- Outcome of the authentication block (lines 427-438). -/
inductive AuthOutcome where
  | pass
  | reject403Header
  | reject403Path
deriving DecidableEq, Repr

/-- Embedding of the authentication block of `webhook_endpoint`: header check
first when the header is truthy, otherwise the path check; skipped entirely
when no secret is configured. -/
def webhook_auth (secret secret_path : String) (header_token : Option String) :
    AuthOutcome :=
  if secret = "" then AuthOutcome.pass
  else if truthyStr header_token then
    if header_token ≠ some secret then AuthOutcome.reject403Header
    else AuthOutcome.pass
  else if secret_path ≠ secret ∧ secret ≠ "" then AuthOutcome.reject403Path
  else AuthOutcome.pass

/-- Environment of one webhook request: the configured secret, the decoded
body (or the JSON decoding failure), whether `asyncio.create_task` succeeds,
and the dispatch environment used if the update is run inline. -/
structure WebEnv where
  webhookSecret : String
  body : Except String TUpdate
  schedulingOk : Bool
  denv : Env

/-- Observable result of one webhook request. -/
structure WebResult where
  status : Nat
  okBody : Bool
  detail : Option String
  dispatched : Bool
  ranInline : Bool
  finalSt : St

/-- Embedding of `webhook_endpoint` (line 418): authenticate, parse, then
schedule the dispatch (or run it inline when scheduling fails) and answer
`200`. -/
def webhook_endpoint (wenv : WebEnv) (secret_path : String)
    (header_token : Option String) (s : St) : WebResult :=
  match webhook_auth wenv.webhookSecret secret_path header_token with
  | AuthOutcome.reject403Header =>
      ⟨403, false, some "Invalid webhook secret header", false, false, s⟩
  | AuthOutcome.reject403Path =>
      ⟨403, false, some "Invalid webhook path secret", false, false, s⟩
  | AuthOutcome.pass =>
    match wenv.body with
    | Except.error _ => ⟨400, false, some "invalid json", false, false, s⟩
    | Except.ok payload =>
      if wenv.schedulingOk then ⟨200, true, none, true, false, s⟩
      else ⟨200, true, none, true, true, (process_update wenv.denv payload s).2⟩

/-! ### Retention cleanup (`_remove_old_logs`, lines 457-479) -/

/-- One file of the log directory listing, with its modification time in
seconds. -/
structure LogFileEnt where
  name : String
  mtime : Int
deriving DecidableEq, Repr

/-- The filter at line 466: only names ending in `.log` or starting with
`bot.log` are considered log artifacts. -/
def log_considered (fname : String) : Bool :=
  strEndsWith fname ".log" || strStartsWith fname "bot.log"

/-- Result of one cleanup pass. -/
structure CleanupResult where
  removed : List String
  remaining : List LogFileEnt
  logs : List String
deriving DecidableEq, Repr

/-- The scan loop of `_remove_old_logs` (lines 465-475): for each considered
file, remove it when its mtime is strictly below the cutoff; a raise during
removal is logged and the file survives. Returns removed paths, surviving
files, and error log lines, in listing order. -/
def removeScan (logDir : String) (cutoff : Int) (removeRaises : String → Bool) :
    List LogFileEnt → List String × List LogFileEnt × List String
  | [] => ([], [], [])
  | f :: rest =>
    let tailRes := removeScan logDir cutoff removeRaises rest
    if log_considered f.name then
      let path := os_path_join logDir f.name
      if f.mtime < cutoff then
        if removeRaises path then
          (tailRes.1, f :: tailRes.2.1, ("Error while removing log file " ++ path) :: tailRes.2.2)
        else (path :: tailRes.1, tailRes.2.1, tailRes.2.2)
      else (tailRes.1, f :: tailRes.2.1, tailRes.2.2)
    else (tailRes.1, f :: tailRes.2.1, tailRes.2.2)

/-- Comma-separated rendering of the removed-path list used in the summary
log line. -/
def joinCommaSp : List String → String
  | [] => ""
  | [x] => x
  | x :: xs => x ++ ", " ++ joinCommaSp xs

/-- Embedding of `_remove_old_logs` (line 457): cutoff is
`now - older_than_days * 24 * 3600`; afterwards either the removed count and
paths are logged or a none-found line is logged. -/
def _remove_old_logs (logDir : String) (now : Int) (files : List LogFileEnt)
    (removeRaises : String → Bool) (older_than_days : Int) : CleanupResult :=
  let cutoff := now - older_than_days * 24 * 3600
  let scan := removeScan logDir cutoff removeRaises files
  { removed := scan.1
    remaining := scan.2.1
    logs := scan.2.2 ++
      [if scan.1.isEmpty then "No old log files to remove"
       else "Removed " ++ natStr scan.1.length ++ " old log files: " ++ joinCommaSp scan.1] }

/-- The default threshold of the `older_than_days` parameter in the source
signature `def _remove_old_logs(older_than_days: int = 35)`. -/
def REMOVE_OLD_LOGS_DEFAULT_DAYS : Int := 35

/-- A call of `_remove_old_logs()` with the parameter left at its default. -/
def remove_old_logs_default (logDir : String) (now : Int) (files : List LogFileEnt)
    (removeRaises : String → Bool) : CleanupResult :=
  _remove_old_logs logDir now files removeRaises REMOVE_OLD_LOGS_DEFAULT_DAYS

/-- The cleanup call performed by `monthly_cleanup_loop` each wake-up
(line 502): `_remove_old_logs(older_than_days=31)`. -/
def monthly_cleanup_run (logDir : String) (now : Int) (files : List LogFileEnt)
    (removeRaises : String → Bool) : CleanupResult :=
  _remove_old_logs logDir now files removeRaises 31

/-! ### Derived observables and concrete fixtures used by the verification -/

/-- The file ids, in order, for which a `getFile` resolution was attempted. -/
def getFileTargets (tr : List Ev) : List (Option String) :=
  tr.filterMap (fun e => match e with | Ev.getFileAttempt fid => some fid | _ => none)

/-- Whether the photo pipeline for `fid` fails under `env` at one of the
three fallible steps the source runs before the acknowledgment: `getFile`
resolution, the byte download, or the filesystem write. (The cache write
cannot fail and `save_media_to_db` never raises.) -/
def photoStepFails (env : Env) (fid : Option String) : Bool :=
  match env.getFileRes fid with
  | Except.error _ => true
  | Except.ok fp =>
    match env.downloadRes fp with
    | Except.error _ => true
    | Except.ok _ => !(env.fsWriteOk (fs_dest env.mediaDir env.nowEpoch (os_path_basename fp)))

/-- An environment in which every external call succeeds. -/
def benignEnv : Env :=
  { mediaDir := "./media", nowEpoch := 111, nowIso := "iso",
    databaseUrl := "postgresql://u@h/db", psycopg2Ok := true, dbInsertOk := true,
    fsWriteOk := fun _ => true, sendOk := fun _ _ => true,
    getFileRes := fun _ => Except.ok "photos/file_9.jpg",
    downloadRes := fun _ => Except.ok [1, 2] }

/-- Like `benignEnv` but the filesystem write raises. -/
def envFsRaise : Env :=
  { benignEnv with fsWriteOk := fun _ => false }

/-- Like `benignEnv` but photo resolution fails and the photo-error notice
send also raises. -/
def envPhotoAndNoticeFail : Env :=
  { benignEnv with
    getFileRes := fun _ => Except.error "getFile failed"
    sendOk := fun _ t => !(t = errPhotoText) }

/-- Like `benignEnv` but every `sendMessage` call raises. -/
def envAllSendsFail : Env :=
  { benignEnv with sendOk := (fun _ _ => false) }

/-- Like `benignEnv` but with no database configured. -/
def envNoDb : Env :=
  { benignEnv with databaseUrl := "" }

/-- An update carrying one photo variant and nothing else. -/
def updPhotoOnly : TUpdate :=
  ⟨some ⟨some ⟨some 7⟩, some ⟨some 5⟩, some [⟨some "fidA"⟩], none, none⟩, none, none⟩

/-- An update carrying one photo variant and a plain text. -/
def updPhotoAndText : TUpdate :=
  ⟨some ⟨some ⟨some 7⟩, some ⟨some 5⟩, some [⟨some "f1"⟩], none, some " hi "⟩, none, none⟩

/-- An update carrying only a plain text message. -/
def updTextOnly : TUpdate :=
  ⟨some ⟨some ⟨some 7⟩, some ⟨some 5⟩, none, none, some "ping"⟩, none, none⟩

/-- An update carrying none of the keys the dispatcher reads. -/
def emptyUpd : TUpdate := ⟨none, none, none⟩

/-- The empty starting state. -/
def st0 : St := ⟨[], []⟩

/-! ### Basic lemmas about the string primitives -/

theorem data_mk (l : List Char) : (String.mk l).data = l := rfl

theorem data_append (a b : String) : (a ++ b).data = a.data ++ b.data := by
  cases a; cases b; rfl

theorem decDigit_mem (d : Nat) : decDigit d ∈ digitCharsList := by
  have h : d % 10 < 10 := Nat.mod_lt _ (by norm_num)
  unfold decDigit
  generalize hm : d % 10 = m at h ⊢
  interval_cases m <;> decide

theorem mem_natCharsAux (fuel : Nat) :
    ∀ n acc c, c ∈ natCharsAux fuel n acc → c ∈ acc ∨ c ∈ digitCharsList := by
  induction fuel with
  | zero => intro n acc c h; exact Or.inl h
  | succ fuel ih =>
    intro n acc c h
    match n with
    | 0 => exact Or.inl h
    | m + 1 =>
      rw [natCharsAux] at h
      rcases ih ((m + 1) / 10) (decDigit ((m + 1) % 10) :: acc) c h with h1 | h1
      · rcases List.mem_cons.mp h1 with h2 | h2
        · exact Or.inr (h2 ▸ decDigit_mem _)
        · exact Or.inl h2
      · exact Or.inr h1

theorem mem_natChars (n : Nat) (c : Char) (h : c ∈ natChars n) : c ∈ digitCharsList := by
  unfold natChars at h
  split at h
  · simp only [List.mem_singleton] at h
    subst h; decide
  · rcases mem_natCharsAux _ _ _ _ h with h1 | h1
    · simp at h1
    · exact h1

theorem natCharsAux_eq_append (fuel : Nat) :
    ∀ n acc, ∃ l, natCharsAux fuel n acc = l ++ acc := by
  induction fuel with
  | zero => intro n acc; exact ⟨[], rfl⟩
  | succ fuel ih =>
    intro n acc
    match n with
    | 0 => exact ⟨[], rfl⟩
    | m + 1 =>
      rw [natCharsAux]
      rcases ih ((m + 1) / 10) (decDigit ((m + 1) % 10) :: acc) with ⟨l, hl⟩
      exact ⟨l ++ [decDigit ((m + 1) % 10)], by rw [hl]; simp⟩

theorem natChars_ne_nil (n : Nat) : natChars n ≠ [] := by
  unfold natChars
  split
  · simp
  · next hn =>
    match n, hn with
    | m + 1, _ =>
      rw [natCharsAux]
      rcases natCharsAux_eq_append (m + 1) ((m + 1) / 10) [decDigit ((m + 1) % 10)] with ⟨l, hl⟩
      rw [hl]
      simp

theorem natChars_cons (n : Nat) : ∃ c l, natChars n = c :: l ∧ c ∈ digitCharsList := by
  rcases hne : natChars n with _ | ⟨c, l⟩
  · exact absurd hne (natChars_ne_nil n)
  · exact ⟨c, l, rfl, mem_natChars n c (by rw [hne]; exact List.mem_cons_self _ _)⟩

theorem natStr_append_not_slash_start (t : Nat) (rest : String) :
    strStartsWith (natStr t ++ rest) "/" = false := by
  rcases natChars_cons t with ⟨c, l, hcl, hc⟩
  have hd : (natStr t ++ rest).data = c :: (l ++ rest.data) := by
    rw [data_append]
    unfold natStr
    rw [data_mk, hcl]
    simp
  unfold strStartsWith
  rw [hd]
  have hpat : ("/" : String).data = ['/'] := rfl
  rw [hpat]
  unfold listStartsWith
  have hc' : c ≠ '/' := by
    intro he
    rw [he] at hc
    simp [digitCharsList] at hc
  simp [hc']

/-! ### Claim C9: filesystem destinations stay inside the media directory -/

theorem replace_no_old (s : String) (old new : Char) (hne : new ≠ old) :
    old ∉ (pyReplaceChar s old new).data := by
  simp only [pyReplaceChar, data_mk, List.mem_map]
  rintro ⟨x, hx, hmap⟩
  by_cases h : x = old
  · rw [if_pos h] at hmap
    exact hne hmap
  · rw [if_neg h] at hmap
    exact h hmap

theorem replace_keeps_absent (s : String) (old new c : Char) (hc : c ∉ s.data)
    (hcn : c ≠ new) : c ∉ (pyReplaceChar s old new).data := by
  simp only [pyReplaceChar, data_mk, List.mem_map]
  rintro ⟨x, hx, hmap⟩
  split at hmap
  · exact hcn hmap.symm
  · exact hc (hmap ▸ hx)

theorem safe_name_no_sep (fn : String) :
    '/' ∉ (pyReplaceChar (pyReplaceChar fn '/' '_') '\\' '_').data ∧
    '\\' ∉ (pyReplaceChar (pyReplaceChar fn '/' '_') '\\' '_').data := by
  constructor
  · exact replace_keeps_absent _ '\\' '_' '/' (replace_no_old fn '/' '_' (by decide)) (by decide)
  · exact replace_no_old _ '\\' '_' (by decide)

/-- Claim C9 — for every filename, including ones containing slash,
backslash, or dot-dot components, the destination composed by
`save_media_to_fs` is a direct child of the media directory: both path
separators are replaced by underscores in the final component, the
component is prefixed with the epoch timestamp and never starts with a
slash, so the join can never escape the media directory. -/
theorem C9_fs_dest_is_direct_child (mediaDir : String) (t : Nat) (filename : String) :
    ∀ name, name = natStr t ++ "_" ++ pyReplaceChar (pyReplaceChar filename '/' '_') '\\' '_' →
      ('/' ∉ name.data ∧ '\\' ∉ name.data ∧ name.data ≠ []) ∧
      (strStartsWith name "/" = false) ∧
      (strEndsWith mediaDir "/" = false → mediaDir ≠ "" →
        fs_dest mediaDir t filename = mediaDir ++ "/" ++ name) ∧
      (strEndsWith mediaDir "/" = true → fs_dest mediaDir t filename = mediaDir ++ name) ∧
      (mediaDir = "" → fs_dest mediaDir t filename = name) := by
  intro name hname
  have hsafe := safe_name_no_sep filename
  have hdata : name.data =
      natChars t ++ ('_' :: (pyReplaceChar (pyReplaceChar filename '/' '_') '\\' '_').data) := by
    rw [hname, data_append, data_append]
    unfold natStr
    rw [data_mk]
    simp
  have hnoslash : '/' ∉ name.data := by
    rw [hdata]
    intro h
    rcases List.mem_append.mp h with h1 | h1
    · have := mem_natChars t '/' h1
      simp [digitCharsList] at this
    · rcases List.mem_cons.mp h1 with h2 | h2
      · exact absurd h2 (by decide)
      · exact hsafe.1 h2
  have hnobs : '\\' ∉ name.data := by
    rw [hdata]
    intro h
    rcases List.mem_append.mp h with h1 | h1
    · have := mem_natChars t '\\' h1
      simp [digitCharsList] at this
    · rcases List.mem_cons.mp h1 with h2 | h2
      · exact absurd h2 (by decide)
      · exact hsafe.2 h2
  have hnn : name.data ≠ [] := by
    rw [hdata]
    rcases natChars_cons t with ⟨c, l, hcl, _⟩
    rw [hcl]
    simp
  have hstart : strStartsWith name "/" = false := by
    rw [hname]
    rw [show natStr t ++ "_" ++ pyReplaceChar (pyReplaceChar filename '/' '_') '\\' '_'
        = natStr t ++ ("_" ++ pyReplaceChar (pyReplaceChar filename '/' '_') '\\' '_') from
      (String.append_assoc _ _ _)]
    exact natStr_append_not_slash_start t _
  refine ⟨⟨hnoslash, hnobs, hnn⟩, hstart, ?_, ?_, ?_⟩
  · intro hend hne
    unfold fs_dest os_path_join
    rw [← hname, hstart]
    simp [hne, hend]
  · intro hend
    unfold fs_dest os_path_join
    rw [← hname, hstart]
    by_cases hme : mediaDir = ""
    · subst hme
      exact absurd hend (by decide)
    · simp [hme, hend]
  · intro hme
    unfold fs_dest os_path_join
    rw [← hname, hstart]
    simp [hme]

/-- Witness for C9 at a concrete traversal-attempting filename. -/
theorem C9_witness :
    ('/' ∉ ("12345_.._.._etc_passwd" : String).data ∧
      '\\' ∉ ("12345_.._.._etc_passwd" : String).data ∧
      ("12345_.._.._etc_passwd" : String).data ≠ []) ∧
    fs_dest "./media" 12345 "../../etc/passwd" = "./media" ++ "/" ++ "12345_.._.._etc_passwd" := by
  have h := C9_fs_dest_is_direct_child "./media" 12345 "../../etc/passwd"
    "12345_.._.._etc_passwd" (by decide)
  exact ⟨h.1, h.2.2.1 (by decide) (by decide)⟩

/-! ### Claim C5: the photo branch resolves exactly the last variant -/

theorem getFileTargets_append (a b : List Ev) :
    getFileTargets (a ++ b) = getFileTargets a ++ getFileTargets b := by
  unfold getFileTargets
  exact List.filterMap_append _ _ _

theorem send_message_targets (env : Env) (c : Option Int) (t : String)
    (m : Option (List (List InlineBtn))) (s : St) :
    getFileTargets (send_message env c t m s).2.trace = getFileTargets s.trace := by
  unfold send_message push
  split <;> simp [getFileTargets_append, getFileTargets]

theorem get_file_path_targets (env : Env) (fid : Option String) (s : St) :
    getFileTargets (get_file_path env fid s).2.trace = getFileTargets s.trace ++ [fid] := by
  unfold get_file_path push
  rcases env.getFileRes fid with e | fp <;> simp [getFileTargets_append, getFileTargets]

theorem download_targets (env : Env) (fp : String) (s : St) :
    getFileTargets (download_file_by_path env fp s).2.trace = getFileTargets s.trace := by
  unfold download_file_by_path push
  rcases env.downloadRes fp with e | bs <;> simp [getFileTargets_append, getFileTargets]

theorem save_fs_targets (env : Env) (bs : List Nat) (fn : String) (s : St) :
    getFileTargets (save_media_to_fs env bs fn s).2.trace = getFileTargets s.trace := by
  unfold save_media_to_fs push
  dsimp only
  split <;> simp [getFileTargets_append, getFileTargets]

theorem save_db_targets (env : Env) (bs : List Nat) (u : Option Int)
    (fid : Option String) (mt : String) (fn : Option String) (s : St) :
    getFileTargets (save_media_to_db env bs u fid mt fn s).2.trace = getFileTargets s.trace := by
  unfold save_media_to_db push
  split
  · simp [getFileTargets_append, getFileTargets]
  · split
    · simp [getFileTargets_append, getFileTargets]
    · split <;> simp [getFileTargets_append, getFileTargets]

theorem photo_inner_targets (env : Env) (u c : Option Int) (fid : Option String) (s : St) :
    getFileTargets (photo_inner env u c fid s).2.trace = getFileTargets s.trace ++ [fid] := by
  unfold photo_inner
  rcases hg : get_file_path env fid s with ⟨rg, s1⟩
  have hs1 : getFileTargets s1.trace = getFileTargets s.trace ++ [fid] := by
    have h := get_file_path_targets env fid s
    rw [hg] at h
    exact h
  cases rg with
  | error e => exact hs1
  | ok fp =>
    dsimp only
    rcases hd : download_file_by_path env fp s1 with ⟨rd, s2⟩
    have hs2 : getFileTargets s2.trace = getFileTargets s.trace ++ [fid] := by
      have h := download_targets env fp s1
      rw [hd] at h
      rw [h]
      exact hs1
    cases rd with
    | error e => exact hs2
    | ok bs =>
      dsimp only
      rcases hf : save_media_to_fs env bs (os_path_basename fp)
          ⟨dictInsert s2.cache fid ⟨bs, u, "photo", os_path_basename fp, env.nowIso⟩,
            s2.trace ++ [Ev.cachePut fid]⟩ with ⟨rf, s4⟩
      have hs4 : getFileTargets s4.trace = getFileTargets s.trace ++ [fid] := by
        have h := save_fs_targets env bs (os_path_basename fp)
          ⟨dictInsert s2.cache fid ⟨bs, u, "photo", os_path_basename fp, env.nowIso⟩,
            s2.trace ++ [Ev.cachePut fid]⟩
        rw [hf] at h
        rw [h]
        dsimp only
        rw [getFileTargets_append, hs2]
        simp [getFileTargets]
      cases rf with
      | error e => exact hs4
      | ok fs_path =>
        dsimp only
        rcases hb : save_media_to_db env bs u fid "photo" (some (os_path_basename fp)) s4 with ⟨rb, s5⟩
        have hs5 : getFileTargets s5.trace = getFileTargets s.trace ++ [fid] := by
          have h := save_db_targets env bs u fid "photo" (some (os_path_basename fp)) s4
          rw [hb] at h
          rw [h]
          exact hs4
        cases rb with
        | error e => exact hs5
        | ok dbOk =>
          dsimp only
          rw [send_message_targets]
          exact hs5

/-- Claim C5 — for every update whose message carries a non-empty
photo-variant list of any length, the dispatcher's photo branch attempts to
resolve exactly one file id, namely the one of the last element of the
list. -/
theorem C5_last_variant_selected (env : Env) (user chat : Option Int)
    (msg : TMessage) (s : St) (photos : List TPhotoSize)
    (hp : msg.photo = some photos) (h : photos ≠ []) :
    getFileTargets (photo_section env user chat msg s).2.trace
      = getFileTargets s.trace ++ [(photos.getLast h).file_id] := by
  unfold photo_section
  rw [hp]
  dsimp only
  rw [List.getLast?_eq_getLast_of_ne_nil h]
  dsimp only
  rcases hi : photo_inner env user chat (photos.getLast h).file_id (push s (Ev.logged "Incoming photo")) with ⟨ri, s2⟩
  have hti : getFileTargets s2.trace
      = getFileTargets s.trace ++ [(photos.getLast h).file_id] := by
    have hmem := photo_inner_targets env user chat (photos.getLast h).file_id
      (push s (Ev.logged "Incoming photo"))
    rw [hi] at hmem
    rw [hmem]
    unfold push
    simp [getFileTargets_append, getFileTargets]
  cases ri with
  | ok v => simpa using hti
  | error e =>
    simp only
    rw [send_message_targets]
    unfold push
    simp only [getFileTargets_append]
    rw [hti]
    simp [getFileTargets]

/-- Witness for C5 on a three-variant list. -/
theorem C5_witness :
    getFileTargets (photo_section
        { mediaDir := "./media", nowEpoch := 7, nowIso := "iso", databaseUrl := "",
          psycopg2Ok := false, dbInsertOk := false, fsWriteOk := fun _ => true,
          sendOk := fun _ _ => true, getFileRes := fun _ => Except.ok "photos/p.jpg",
          downloadRes := fun _ => Except.ok [1] }
        (some 7) (some 5)
        { msgFrom := some ⟨some 7⟩, chat := some ⟨some 5⟩,
          photo := some [⟨some "small"⟩, ⟨some "mid"⟩, ⟨some "big"⟩],
          video := none, text := none }
        ⟨[], []⟩).2.trace
      = [some "big"] := by
  rw [C5_last_variant_selected _ _ _ _ _ [⟨some "small"⟩, ⟨some "mid"⟩, ⟨some "big"⟩]
    rfl (by decide)]
  decide

/-! ### Equation lemmas for the transport and sink helpers -/

theorem get_file_path_ok (env : Env) (fid : Option String) (s : St) (fp : String)
    (h : env.getFileRes fid = Except.ok fp) :
    get_file_path env fid s = (Except.ok fp, push s (Ev.getFileAttempt fid)) := by
  unfold get_file_path
  rw [h]

theorem get_file_path_err (env : Env) (fid : Option String) (s : St) (e : String)
    (h : env.getFileRes fid = Except.error e) :
    get_file_path env fid s = (Except.error e, push s (Ev.getFileAttempt fid)) := by
  unfold get_file_path
  rw [h]

theorem download_ok (env : Env) (fp : String) (s : St) (bs : List Nat)
    (h : env.downloadRes fp = Except.ok bs) :
    download_file_by_path env fp s = (Except.ok bs, push s (Ev.downloadAttempt fp)) := by
  unfold download_file_by_path
  rw [h]

theorem download_err (env : Env) (fp : String) (s : St) (e : String)
    (h : env.downloadRes fp = Except.error e) :
    download_file_by_path env fp s = (Except.error e, push s (Ev.downloadAttempt fp)) := by
  unfold download_file_by_path
  rw [h]

theorem save_fs_ok (env : Env) (bs : List Nat) (fn : String) (s : St)
    (h : env.fsWriteOk (fs_dest env.mediaDir env.nowEpoch fn) = true) :
    save_media_to_fs env bs fn s =
      (Except.ok (fs_dest env.mediaDir env.nowEpoch fn),
        push (push s (Ev.fsWriteAttempt (fs_dest env.mediaDir env.nowEpoch fn)))
          (Ev.fsWrote (fs_dest env.mediaDir env.nowEpoch fn))) := by
  unfold save_media_to_fs
  dsimp only
  rw [h]
  simp

theorem save_fs_fail (env : Env) (bs : List Nat) (fn : String) (s : St)
    (h : env.fsWriteOk (fs_dest env.mediaDir env.nowEpoch fn) = false) :
    save_media_to_fs env bs fn s =
      (Except.error "IOError",
        push s (Ev.fsWriteAttempt (fs_dest env.mediaDir env.nowEpoch fn))) := by
  unfold save_media_to_fs
  dsimp only
  rw [h]
  simp

theorem send_message_ok (env : Env) (c : Option Int) (t : String)
    (m : Option (List (List InlineBtn))) (s : St) (h : env.sendOk c t = true) :
    send_message env c t m s =
      (Except.ok (), push (push s (Ev.sendAttempt c t)) (Ev.sent c t)) := by
  unfold send_message
  rw [h]
  simp

theorem send_message_fail (env : Env) (c : Option Int) (t : String)
    (m : Option (List (List InlineBtn))) (s : St) (h : env.sendOk c t = false) :
    send_message env c t m s =
      (Except.error "send_message failed", push s (Ev.sendAttempt c t)) := by
  unfold send_message
  rw [h]
  simp

theorem send_message_trace_shape (env : Env) (c : Option Int) (t : String)
    (m : Option (List (List InlineBtn))) (s : St) :
    ∃ extra, (send_message env c t m s).2 =
      ⟨s.cache, s.trace ++ [Ev.sendAttempt c t] ++ extra⟩ := by
  unfold send_message push
  split
  · exact ⟨[Ev.sent c t], by simp⟩
  · exact ⟨[], by simp⟩

theorem save_db_never_raises (env : Env) (bs : List Nat) (u : Option Int)
    (fid : Option String) (mt : String) (fn : Option String) (s : St) :
    ∃ b extra, save_media_to_db env bs u fid mt fn s =
      (Except.ok b, ⟨s.cache, s.trace ++ [Ev.dbAttempt u fid mt fn] ++ extra⟩) := by
  unfold save_media_to_db push
  split
  · exact ⟨false, [Ev.logged "DATABASE_URL not set, skipping DB save"], by simp⟩
  · split
    · exact ⟨false, [Ev.logged "psycopg2 not installed, skipping DB save"], by simp⟩
    · split
      · exact ⟨true, [Ev.dbResult true], by simp⟩
      · exact ⟨false, [Ev.logged "Failed to save media to DB", Ev.dbResult false], by simp⟩

/-! ### Shape of the photo pipeline under success and failure of the sinks -/

theorem photo_inner_fsOk (env : Env) (u c : Option Int) (fid : Option String) (s : St)
    (fp : String) (bs : List Nat)
    (hg : env.getFileRes fid = Except.ok fp) (hd : env.downloadRes fp = Except.ok bs)
    (hw : env.fsWriteOk (fs_dest env.mediaDir env.nowEpoch (os_path_basename fp)) = true) :
    ∃ extra, photo_inner env u c fid s =
      send_message env c
        (photoAckText (os_path_basename (fs_dest env.mediaDir env.nowEpoch (os_path_basename fp))))
        none
        ⟨dictInsert s.cache fid ⟨bs, u, "photo", os_path_basename fp, env.nowIso⟩,
          s.trace ++ [Ev.getFileAttempt fid, Ev.downloadAttempt fp, Ev.cachePut fid,
            Ev.fsWriteAttempt (fs_dest env.mediaDir env.nowEpoch (os_path_basename fp)),
            Ev.fsWrote (fs_dest env.mediaDir env.nowEpoch (os_path_basename fp)),
            Ev.dbAttempt u fid "photo" (some (os_path_basename fp))] ++ extra⟩ := by
  by_cases hurl : env.databaseUrl = ""
  · refine ⟨[Ev.logged "DATABASE_URL not set, skipping DB save"], ?_⟩
    simp only [photo_inner, get_file_path, download_file_by_path, save_media_to_fs,
      save_media_to_db, push, hg, hd, hw, hurl]
    simp [List.append_assoc]
  · rcases hps : env.psycopg2Ok with _ | _
    · refine ⟨[Ev.logged "psycopg2 not installed, skipping DB save"], ?_⟩
      simp only [photo_inner, get_file_path, download_file_by_path, save_media_to_fs,
        save_media_to_db, push, hg, hd, hw, hurl, hps]
      simp [List.append_assoc]
    · rcases hins : env.dbInsertOk with _ | _
      · refine ⟨[Ev.logged "Failed to save media to DB", Ev.dbResult false], ?_⟩
        simp only [photo_inner, get_file_path, download_file_by_path, save_media_to_fs,
          save_media_to_db, push, hg, hd, hw, hurl, hps, hins]
        simp [List.append_assoc]
      · refine ⟨[Ev.dbResult true], ?_⟩
        simp only [photo_inner, get_file_path, download_file_by_path, save_media_to_fs,
          save_media_to_db, push, hg, hd, hw, hurl, hps, hins]
        simp [List.append_assoc]

theorem photo_inner_fsFail (env : Env) (u c : Option Int) (fid : Option String) (s : St)
    (fp : String) (bs : List Nat)
    (hg : env.getFileRes fid = Except.ok fp) (hd : env.downloadRes fp = Except.ok bs)
    (hw : env.fsWriteOk (fs_dest env.mediaDir env.nowEpoch (os_path_basename fp)) = false) :
    photo_inner env u c fid s =
      (Except.error "IOError",
        ⟨dictInsert s.cache fid ⟨bs, u, "photo", os_path_basename fp, env.nowIso⟩,
          s.trace ++ [Ev.getFileAttempt fid, Ev.downloadAttempt fp, Ev.cachePut fid,
            Ev.fsWriteAttempt (fs_dest env.mediaDir env.nowEpoch (os_path_basename fp))]⟩) := by
  simp only [photo_inner, get_file_path, download_file_by_path, save_media_to_fs,
    push, hg, hd, hw]
  simp [List.append_assoc]

theorem photo_section_fsFail (env : Env) (u c : Option Int) (msg : TMessage) (s : St)
    (photos : List TPhotoSize) (largest : TPhotoSize) (fp : String) (bs : List Nat)
    (hp : msg.photo = some photos) (hl : photos.getLast? = some largest)
    (hg : env.getFileRes largest.file_id = Except.ok fp)
    (hd : env.downloadRes fp = Except.ok bs)
    (hw : env.fsWriteOk (fs_dest env.mediaDir env.nowEpoch (os_path_basename fp)) = false) :
    photo_section env u c msg s =
      send_message env c errPhotoText none
        ⟨dictInsert s.cache largest.file_id ⟨bs, u, "photo", os_path_basename fp, env.nowIso⟩,
          s.trace ++ [Ev.logged "Incoming photo", Ev.getFileAttempt largest.file_id,
            Ev.downloadAttempt fp, Ev.cachePut largest.file_id,
            Ev.fsWriteAttempt (fs_dest env.mediaDir env.nowEpoch (os_path_basename fp)),
            Ev.logged "Error processing photo: IOError"]⟩ := by
  unfold photo_section
  rw [hp]
  dsimp only
  rw [hl]
  dsimp only
  rw [photo_inner_fsFail env u c largest.file_id (push s (Ev.logged "Incoming photo")) fp bs hg hd hw]
  dsimp only
  simp [push, List.append_assoc]

theorem video_inner_fsOk (env : Env) (u c : Option Int) (fid : Option String) (s : St)
    (fp : String) (bs : List Nat)
    (hg : env.getFileRes fid = Except.ok fp) (hd : env.downloadRes fp = Except.ok bs)
    (hw : env.fsWriteOk (fs_dest env.mediaDir env.nowEpoch (os_path_basename fp)) = true) :
    ∃ extra, video_inner env u c fid s =
      send_message env c
        (videoAckText (os_path_basename (fs_dest env.mediaDir env.nowEpoch (os_path_basename fp))))
        none
        ⟨dictInsert s.cache fid ⟨bs, u, "video", os_path_basename fp, env.nowIso⟩,
          s.trace ++ [Ev.getFileAttempt fid, Ev.downloadAttempt fp, Ev.cachePut fid,
            Ev.fsWriteAttempt (fs_dest env.mediaDir env.nowEpoch (os_path_basename fp)),
            Ev.fsWrote (fs_dest env.mediaDir env.nowEpoch (os_path_basename fp)),
            Ev.dbAttempt u fid "video" (some (os_path_basename fp))] ++ extra⟩ := by
  by_cases hurl : env.databaseUrl = ""
  · refine ⟨[Ev.logged "DATABASE_URL not set, skipping DB save"], ?_⟩
    simp only [video_inner, get_file_path, download_file_by_path, save_media_to_fs,
      save_media_to_db, push, hg, hd, hw, hurl]
    simp [List.append_assoc]
  · rcases hps : env.psycopg2Ok with _ | _
    · refine ⟨[Ev.logged "psycopg2 not installed, skipping DB save"], ?_⟩
      simp only [video_inner, get_file_path, download_file_by_path, save_media_to_fs,
        save_media_to_db, push, hg, hd, hw, hurl, hps]
      simp [List.append_assoc]
    · rcases hins : env.dbInsertOk with _ | _
      · refine ⟨[Ev.logged "Failed to save media to DB", Ev.dbResult false], ?_⟩
        simp only [video_inner, get_file_path, download_file_by_path, save_media_to_fs,
          save_media_to_db, push, hg, hd, hw, hurl, hps, hins]
        simp [List.append_assoc]
      · refine ⟨[Ev.dbResult true], ?_⟩
        simp only [video_inner, get_file_path, download_file_by_path, save_media_to_fs,
          save_media_to_db, push, hg, hd, hw, hurl, hps, hins]
        simp [List.append_assoc]

theorem video_inner_fsFail (env : Env) (u c : Option Int) (fid : Option String) (s : St)
    (fp : String) (bs : List Nat)
    (hg : env.getFileRes fid = Except.ok fp) (hd : env.downloadRes fp = Except.ok bs)
    (hw : env.fsWriteOk (fs_dest env.mediaDir env.nowEpoch (os_path_basename fp)) = false) :
    video_inner env u c fid s =
      (Except.error "IOError",
        ⟨dictInsert s.cache fid ⟨bs, u, "video", os_path_basename fp, env.nowIso⟩,
          s.trace ++ [Ev.getFileAttempt fid, Ev.downloadAttempt fp, Ev.cachePut fid,
            Ev.fsWriteAttempt (fs_dest env.mediaDir env.nowEpoch (os_path_basename fp))]⟩) := by
  simp only [video_inner, get_file_path, download_file_by_path, save_media_to_fs,
    push, hg, hd, hw]
  simp [List.append_assoc]

theorem video_section_fsFail (env : Env) (u c : Option Int) (msg : TMessage) (s : St)
    (vid : TVideo) (fp : String) (bs : List Nat)
    (hv : msg.video = some vid)
    (hg : env.getFileRes vid.file_id = Except.ok fp)
    (hd : env.downloadRes fp = Except.ok bs)
    (hw : env.fsWriteOk (fs_dest env.mediaDir env.nowEpoch (os_path_basename fp)) = false) :
    video_section env u c msg s =
      send_message env c errVideoText none
        ⟨dictInsert s.cache vid.file_id ⟨bs, u, "video", os_path_basename fp, env.nowIso⟩,
          s.trace ++ [Ev.logged "Incoming video", Ev.getFileAttempt vid.file_id,
            Ev.downloadAttempt fp, Ev.cachePut vid.file_id,
            Ev.fsWriteAttempt (fs_dest env.mediaDir env.nowEpoch (os_path_basename fp)),
            Ev.logged "Error processing video: IOError"]⟩ := by
  unfold video_section
  rw [hv]
  dsimp only
  rw [video_inner_fsFail env u c vid.file_id (push s (Ev.logged "Incoming video")) fp bs hg hd hw]
  dsimp only
  simp [push, List.append_assoc]

theorem photoAckText_ne_err (nm : String) : photoAckText nm ≠ errPhotoText := by
  intro h
  have h1 := congrArg (fun q => q.data.length) h
  simp only [photoAckText, errPhotoText, data_append, List.length_append] at h1
  have e1 : ("Фото получено и сохранено (файл: " : String).data.length = 33 := by decide
  have e2 : (")" : String).data.length = 1 := by decide
  have e3 : ("Ошибка при обработке фото." : String).data.length = 26 := by decide
  rw [e1, e2, e3] at h1
  omega

theorem videoAckText_ne_err (nm : String) : videoAckText nm ≠ errVideoText := by
  intro h
  have h1 := congrArg (fun q => q.data.length) h
  simp only [videoAckText, errVideoText, data_append, List.length_append] at h1
  have e1 : ("Видео получено и сохранено (файл: " : String).data.length = 34 := by decide
  have e2 : (")" : String).data.length = 1 := by decide
  have e3 : ("Ошибка при обработке видео." : String).data.length = 27 := by decide
  rw [e1, e2, e3] at h1
  omega

theorem send_message_attempt_mem (env : Env) (c : Option Int) (t : String)
    (m : Option (List (List InlineBtn))) (s : St) :
    Ev.sendAttempt c t ∈ (send_message env c t m s).2.trace ∧
    ∀ e, e ∈ s.trace → e ∈ (send_message env c t m s).2.trace := by
  unfold send_message push
  split <;> constructor <;> simp +contextual

/-! ### Claim C1: independence of the three sink writes -/

/-- Claim C1 (amended) — cache, filesystem and database writes run in one
`try` block, in that order, before the acknowledgment. A database-sink
failure of any kind cannot block anything: the cache and filesystem writes
precede it and the acknowledgment send is still attempted afterwards (first
conjunct, which holds with no hypothesis on the database environment). The
cache write itself cannot fail. But the writes are not independent in the
claimed sense: when the filesystem write raises, the database write is not
attempted at all and the success acknowledgment is replaced by the generic
media-error notice (second conjunct). -/
theorem C1_sink_write_independence (env : Env) (user chat : Option Int) (s : St)
    (fid : Option String) (fp : String) (bs : List Nat)
    (msgP msgV : TMessage) (photos : List TPhotoSize) (largest : TPhotoSize) (vid : TVideo)
    (hg : env.getFileRes fid = Except.ok fp)
    (hd : env.downloadRes fp = Except.ok bs)
    (hs : s.trace = [])
    (hp : msgP.photo = some photos) (hl : photos.getLast? = some largest)
    (hfidP : largest.file_id = fid)
    (hv : msgV.video = some vid) (hfidV : vid.file_id = fid) :
    (env.fsWriteOk (fs_dest env.mediaDir env.nowEpoch (os_path_basename fp)) = true →
      (Ev.cachePut fid ∈ (photo_inner env user chat fid s).2.trace ∧
        Ev.dbAttempt user fid "photo" (some (os_path_basename fp)) ∈
          (photo_inner env user chat fid s).2.trace ∧
        Ev.sendAttempt chat
            (photoAckText (os_path_basename (fs_dest env.mediaDir env.nowEpoch (os_path_basename fp)))) ∈
          (photo_inner env user chat fid s).2.trace) ∧
      (Ev.cachePut fid ∈ (video_inner env user chat fid s).2.trace ∧
        Ev.dbAttempt user fid "video" (some (os_path_basename fp)) ∈
          (video_inner env user chat fid s).2.trace ∧
        Ev.sendAttempt chat
            (videoAckText (os_path_basename (fs_dest env.mediaDir env.nowEpoch (os_path_basename fp)))) ∈
          (video_inner env user chat fid s).2.trace)) ∧
    (env.fsWriteOk (fs_dest env.mediaDir env.nowEpoch (os_path_basename fp)) = false →
      ((∀ uu ff mm nn, Ev.dbAttempt uu ff mm nn ∉ (photo_section env user chat msgP s).2.trace) ∧
        (∀ nm, Ev.sendAttempt chat (photoAckText nm) ∉ (photo_section env user chat msgP s).2.trace) ∧
        Ev.sendAttempt chat errPhotoText ∈ (photo_section env user chat msgP s).2.trace) ∧
      ((∀ uu ff mm nn, Ev.dbAttempt uu ff mm nn ∉ (video_section env user chat msgV s).2.trace) ∧
        (∀ nm, Ev.sendAttempt chat (videoAckText nm) ∉ (video_section env user chat msgV s).2.trace) ∧
        Ev.sendAttempt chat errVideoText ∈ (video_section env user chat msgV s).2.trace)) := by
  constructor
  · intro hw
    constructor
    · obtain ⟨extra, heq⟩ := photo_inner_fsOk env user chat fid s fp bs hg hd hw
      rw [heq]
      refine ⟨?_, ?_, ?_⟩
      · exact (send_message_attempt_mem _ _ _ _ _).2 _ (by simp)
      · exact (send_message_attempt_mem _ _ _ _ _).2 _ (by simp)
      · exact (send_message_attempt_mem _ _ _ _ _).1
    · obtain ⟨extra, heq⟩ := video_inner_fsOk env user chat fid s fp bs hg hd hw
      rw [heq]
      refine ⟨?_, ?_, ?_⟩
      · exact (send_message_attempt_mem _ _ _ _ _).2 _ (by simp)
      · exact (send_message_attempt_mem _ _ _ _ _).2 _ (by simp)
      · exact (send_message_attempt_mem _ _ _ _ _).1
  · intro hw
    constructor
    · rw [photo_section_fsFail env user chat msgP s photos largest fp bs hp hl
        (by rw [hfidP]; exact hg) hd hw]
      rcases hso : env.sendOk chat errPhotoText with _ | _
      · rw [send_message_fail _ _ _ _ _ hso]
        refine ⟨?_, ?_, ?_⟩
        · intro uu ff mm nn
          simp [push, hs]
        · intro nm
          simp [push, hs, photoAckText_ne_err nm]
        · simp [push]
      · rw [send_message_ok _ _ _ _ _ hso]
        refine ⟨?_, ?_, ?_⟩
        · intro uu ff mm nn
          simp [push, hs]
        · intro nm
          simp [push, hs, photoAckText_ne_err nm]
        · simp [push]
    · rw [video_section_fsFail env user chat msgV s vid fp bs hv
        (by rw [hfidV]; exact hg) hd hw]
      rcases hso : env.sendOk chat errVideoText with _ | _
      · rw [send_message_fail _ _ _ _ _ hso]
        refine ⟨?_, ?_, ?_⟩
        · intro uu ff mm nn
          simp [push, hs]
        · intro nm
          simp [push, hs, videoAckText_ne_err nm]
        · simp [push]
      · rw [send_message_ok _ _ _ _ _ hso]
        refine ⟨?_, ?_, ?_⟩
        · intro uu ff mm nn
          simp [push, hs]
        · intro nm
          simp [push, hs, videoAckText_ne_err nm]
        · simp [push]

/-- Witness for C1: with all sinks healthy the database write and the
acknowledgment both happen after the cache write; with a raising filesystem
the database write disappears and the error notice replaces the
acknowledgment. -/
theorem C1_witness :
    (Ev.dbAttempt (some 7) (some "fidA") "photo" (some "file_9.jpg") ∈
        (photo_inner benignEnv (some 7) (some 5) (some "fidA") st0).2.trace ∧
      Ev.sendAttempt (some 5) (photoAckText "111_file_9.jpg") ∈
        (photo_inner benignEnv (some 7) (some 5) (some "fidA") st0).2.trace) ∧
    ((∀ uu ff mm nn, Ev.dbAttempt uu ff mm nn ∉
        (photo_section envFsRaise (some 7) (some 5)
          ⟨some ⟨some 7⟩, some ⟨some 5⟩, some [⟨some "fidA"⟩], none, none⟩ st0).2.trace) ∧
      Ev.sendAttempt (some 5) errPhotoText ∈
        (photo_section envFsRaise (some 7) (some 5)
          ⟨some ⟨some 7⟩, some ⟨some 5⟩, some [⟨some "fidA"⟩], none, none⟩ st0).2.trace) := by
  have h1 := (C1_sink_write_independence benignEnv (some 7) (some 5) st0
    (some "fidA") "photos/file_9.jpg" [1, 2]
    ⟨some ⟨some 7⟩, some ⟨some 5⟩, some [⟨some "fidA"⟩], none, none⟩
    ⟨some ⟨some 7⟩, some ⟨some 5⟩, none, some ⟨some "fidA"⟩, none⟩
    [⟨some "fidA"⟩] ⟨some "fidA"⟩ ⟨some "fidA"⟩
    rfl rfl rfl rfl rfl rfl rfl rfl).1 rfl
  have h2 := (C1_sink_write_independence envFsRaise (some 7) (some 5) st0
    (some "fidA") "photos/file_9.jpg" [1, 2]
    ⟨some ⟨some 7⟩, some ⟨some 5⟩, some [⟨some "fidA"⟩], none, none⟩
    ⟨some ⟨some 7⟩, some ⟨some 5⟩, none, some ⟨some "fidA"⟩, none⟩
    [⟨some "fidA"⟩] ⟨some "fidA"⟩ ⟨some "fidA"⟩
    rfl rfl rfl rfl rfl rfl rfl rfl).2 rfl
  exact ⟨⟨h1.1.2.1, h1.1.2.2⟩, ⟨h2.1.1, h2.1.2.2⟩⟩

/-- Counterexample to C1 as stated: in an environment whose filesystem
write raises (and every other call succeeds), a photo update leads to no
database attempt at all and to no acknowledgment — contradicting that a
filesystem failure leaves the database write attempted and the chat
acknowledged. The filesystem write itself was attempted, so media
persistence was in progress. -/
theorem C1_counterexample :
    ((process_update envFsRaise updPhotoOnly st0).2.trace.any
        (fun e => match e with | Ev.dbAttempt _ _ _ _ => true | _ => false)) = false ∧
    ((process_update envFsRaise updPhotoOnly st0).2.trace.any
        (fun e => match e with
          | Ev.sendAttempt _ t => strStartsWith t "Фото получено"
          | _ => false)) = false ∧
    Ev.fsWriteAttempt "./media/111_file_9.jpg" ∈
      (process_update envFsRaise updPhotoOnly st0).2.trace := by
  decide

/-! ### Claim C2: photo failures are contained inside the photo branch -/

theorem photo_inner_getFileErr (env : Env) (u c : Option Int) (fid : Option String)
    (s : St) (e : String) (hg : env.getFileRes fid = Except.error e) :
    photo_inner env u c fid s = (Except.error e, push s (Ev.getFileAttempt fid)) := by
  unfold photo_inner
  rw [get_file_path_err env fid s e hg]

theorem photo_inner_downloadErr (env : Env) (u c : Option Int) (fid : Option String)
    (s : St) (fp : String) (e : String)
    (hg : env.getFileRes fid = Except.ok fp) (hd : env.downloadRes fp = Except.error e) :
    photo_inner env u c fid s =
      (Except.error e, push (push s (Ev.getFileAttempt fid)) (Ev.downloadAttempt fp)) := by
  unfold photo_inner
  rw [get_file_path_ok env fid s fp hg]
  dsimp only
  rw [download_err env fp _ e hd]

theorem finalize_top_ok (r : Except String Unit × St) :
    ∃ s2, finalize_top r = (Except.ok (), s2) := by
  rcases r with ⟨r1, st⟩
  cases r1 <;> exact ⟨_, rfl⟩

theorem photo_section_fail_recovers (env : Env) (u c : Option Int) (msg : TMessage)
    (s : St) (photos : List TPhotoSize) (largest : TPhotoSize)
    (hp : msg.photo = some photos) (hl : photos.getLast? = some largest)
    (hf : photoStepFails env largest.file_id = true)
    (hso : env.sendOk c errPhotoText = true) :
    ∃ s1, photo_section env u c msg s = (Except.ok (), s1) ∧
      Ev.sent c errPhotoText ∈ s1.trace := by
  unfold photo_section
  rw [hp]
  dsimp only
  rw [hl]
  dsimp only
  unfold photoStepFails at hf
  rcases hg : env.getFileRes largest.file_id with e | fp
  · rw [photo_inner_getFileErr env u c largest.file_id _ e hg]
    dsimp only
    rw [send_message_ok _ _ _ _ _ hso]
    exact ⟨_, rfl, by simp [push]⟩
  · rw [hg] at hf
    dsimp only at hf
    rcases hd : env.downloadRes fp with e | bs
    · rw [photo_inner_downloadErr env u c largest.file_id _ fp e hg hd]
      dsimp only
      rw [send_message_ok _ _ _ _ _ hso]
      exact ⟨_, rfl, by simp [push]⟩
    · rw [hd] at hf
      dsimp only at hf
      have hw : env.fsWriteOk (fs_dest env.mediaDir env.nowEpoch (os_path_basename fp)) = false := by
        simpa using hf
      rw [photo_inner_fsFail env u c largest.file_id _ fp bs hg hd hw]
      dsimp only
      rw [send_message_ok _ _ _ _ _ hso]
      exact ⟨_, rfl, by simp [push]⟩

/-- Claim C2 (amended) — when any of the fallible photo steps (resolution,
download, filesystem persistence) fails, the generic photo-error notice is
sent and the photo branch ends normally; the dispatch then continues with
exactly the video-and-text remainder and `process_update` returns normally.
This holds provided the error-notice send itself does not raise; when that
send raises too, the remainder of the dispatch is skipped (see the
counterexample), though the top-level handler still absorbs the exception. -/
theorem C2_photo_failure_contained (env : Env) (u : TUpdate) (msg : TMessage) (s : St)
    (photos : List TPhotoSize) (largest : TPhotoSize)
    (hm : getMessage u = some msg)
    (hp : msg.photo = some photos) (hl : photos.getLast? = some largest)
    (hf : photoStepFails env largest.file_id = true)
    (hso : env.sendOk (chatIdOf msg) errPhotoText = true) :
    ∃ s1, photo_section env (userIdOf msg) (chatIdOf msg) msg
        (push s (Ev.logged "Processing update")) = (Except.ok (), s1) ∧
      Ev.sent (chatIdOf msg) errPhotoText ∈ s1.trace ∧
      process_update env u s =
        finalize_top (media_and_text_tail env (userIdOf msg) (chatIdOf msg) msg s1) ∧
      (process_update env u s).1 = Except.ok () := by
  obtain ⟨s1, hsec, hmem⟩ := photo_section_fail_recovers env (userIdOf msg) (chatIdOf msg)
    msg (push s (Ev.logged "Processing update")) photos largest hp hl hf hso
  have hproc : process_update env u s =
      finalize_top (media_and_text_tail env (userIdOf msg) (chatIdOf msg) msg s1) := by
    unfold process_update dispatch_body
    rw [hm]
    dsimp only
    simp only [user_exists, if_true]
    unfold dispatch_msg
    rw [hsec]
  refine ⟨s1, hsec, hmem, hproc, ?_⟩
  rw [hproc]
  obtain ⟨s2, h2⟩ := finalize_top_ok (media_and_text_tail env (userIdOf msg) (chatIdOf msg) msg s1)
  rw [h2]

/-- Witness for C2: a raising filesystem write fails the photo pipeline; the
notice goes out and the dispatch continues into the text branch. -/
theorem C2_witness :
    ∃ s1, photo_section envFsRaise (some 7) (some 5)
        ⟨some ⟨some 7⟩, some ⟨some 5⟩, some [⟨some "f1"⟩], none, some " hi "⟩
        (push st0 (Ev.logged "Processing update")) = (Except.ok (), s1) ∧
      Ev.sent (some 5) errPhotoText ∈ s1.trace ∧
      process_update envFsRaise updPhotoAndText st0 =
        finalize_top (media_and_text_tail envFsRaise (some 7) (some 5)
          ⟨some ⟨some 7⟩, some ⟨some 5⟩, some [⟨some "f1"⟩], none, some " hi "⟩ s1) ∧
      (process_update envFsRaise updPhotoAndText st0).1 = Except.ok () :=
  C2_photo_failure_contained envFsRaise updPhotoAndText
    ⟨some ⟨some 7⟩, some ⟨some 5⟩, some [⟨some "f1"⟩], none, some " hi "⟩ st0
    [⟨some "f1"⟩] ⟨some "f1"⟩ rfl rfl rfl (by decide) rfl

/-- Counterexample to C2 as stated: when the photo pipeline fails and the
generic photo-error notice send itself raises, the notice is not delivered
and the text branch of the same update is never executed — the escape
propagates to the top-level handler, aborting the rest of the dispatch. -/
theorem C2_counterexample :
    Ev.sendAttempt (some 5) "Вы написали: hi" ∉
      (process_update envPhotoAndNoticeFail updPhotoAndText st0).2.trace ∧
    Ev.sent (some 5) errPhotoText ∉
      (process_update envPhotoAndNoticeFail updPhotoAndText st0).2.trace ∧
    photoStepFails envPhotoAndNoticeFail (some "f1") = true := by
  decide

/-! ### Claim C3: the database sink fails softly and never blocks the flow -/

/-- Claim C3 — for every input, `save_media_to_db` returns a boolean and
never raises: an unconfigured database, a missing driver, and a throwing
insert each yield `false` instead of an exception; and the acknowledgment
send of the photo pipeline is attempted whatever the database environment
says, so the database outcome never blocks the user-facing flow. -/
theorem C3_save_media_to_db_never_raises (env : Env) (bs : List Nat) (user : Option Int)
    (fid : Option String) (mt : String) (fn : Option String) (s : St) :
    (∃ b s2, save_media_to_db env bs user fid mt fn s = (Except.ok b, s2)) ∧
    (env.databaseUrl = "" →
      (save_media_to_db env bs user fid mt fn s).1 = Except.ok false) ∧
    (env.psycopg2Ok = false →
      (save_media_to_db env bs user fid mt fn s).1 = Except.ok false) ∧
    (env.dbInsertOk = false →
      (save_media_to_db env bs user fid mt fn s).1 = Except.ok false) ∧
    (∀ chat fp bs2,
      env.getFileRes fid = Except.ok fp → env.downloadRes fp = Except.ok bs2 →
      env.fsWriteOk (fs_dest env.mediaDir env.nowEpoch (os_path_basename fp)) = true →
      Ev.sendAttempt chat
          (photoAckText (os_path_basename (fs_dest env.mediaDir env.nowEpoch (os_path_basename fp)))) ∈
        (photo_inner env user chat fid s).2.trace) := by
  refine ⟨?_, ?_, ?_, ?_, ?_⟩
  · obtain ⟨b, extra, h⟩ := save_db_never_raises env bs user fid mt fn s
    exact ⟨b, _, h⟩
  · intro h
    unfold save_media_to_db
    dsimp only
    simp [h]
  · intro h
    unfold save_media_to_db
    dsimp only
    split
    · rfl
    · simp [h]
  · intro h
    unfold save_media_to_db
    dsimp only
    split
    · rfl
    · split
      · rfl
      · rw [h]
        simp
  · intro chat fp bs2 hg hd hw
    obtain ⟨extra, heq⟩ := photo_inner_fsOk env user chat fid s fp bs2 hg hd hw
    rw [heq]
    exact (send_message_attempt_mem _ _ _ _ _).1

/-- Witness for C3: with the database unconfigured the sink returns `false`
without raising and the photo acknowledgment is still attempted. -/
theorem C3_witness :
    (save_media_to_db envNoDb [9] (some 7) (some "fidA") "photo" (some "x") st0).1
      = Except.ok false ∧
    Ev.sendAttempt (some 5) (photoAckText "111_file_9.jpg") ∈
      (photo_inner envNoDb (some 7) (some 5) (some "fidA") st0).2.trace := by
  have h := C3_save_media_to_db_never_raises envNoDb [9] (some 7) (some "fidA") "photo"
    (some "x") st0
  exact ⟨h.2.1 rfl, h.2.2.2.2 (some 5) "photos/file_9.jpg" [1, 2] rfl rfl rfl⟩

/-! ### Claim C4: the dispatcher entry point never propagates an exception -/

/-- Claim C4 — for every environment, update and state, `process_update`
returns normally: whatever the dispatch body does, the result is `ok`, and
when the body ends in an exception that exception is logged at the top
level instead of propagating. -/
theorem C4_dispatcher_never_raises (env : Env) (u : TUpdate) (s : St) :
    ∃ s2, process_update env u s = (Except.ok (), s2) ∧
      ∀ e, (dispatch_body env u (push s (Ev.logged "Processing update"))).1 = Except.error e →
        Ev.logged ("Unhandled exception in process_update: " ++ e) ∈ s2.trace := by
  unfold process_update
  rcases hb : dispatch_body env u (push s (Ev.logged "Processing update")) with ⟨r, st⟩
  cases r with
  | ok v =>
    refine ⟨st, rfl, ?_⟩
    intro e he
    simp at he
  | error e' =>
    refine ⟨push st (Ev.logged ("Unhandled exception in process_update: " ++ e')), rfl, ?_⟩
    intro e he
    simp only at he
    rw [Except.error.injEq] at he
    subst he
    simp [push]

/-- Witness for C4: with every outbound send raising, the dispatch body
raises on a text update; `process_update` still returns `ok` and logs the
exception. -/
theorem C4_witness :
    (process_update envAllSendsFail updTextOnly st0).1 = Except.ok () ∧
    Ev.logged ("Unhandled exception in process_update: " ++ "send_message failed") ∈
      (process_update envAllSendsFail updTextOnly st0).2.trace := by
  obtain ⟨s2, h1, h2⟩ := C4_dispatcher_never_raises envAllSendsFail updTextOnly st0
  have h3 := h2 "send_message failed" (by rfl)
  constructor
  · rw [h1]
  · rw [h1]
    exact h3

/-! ### Claim C6: webhook authentication -/

/-- Claim C6 (amended) — with a secret configured: a present and non-empty
header that differs from the secret is rejected with 403 and the dispatcher
is never invoked; when the header is absent or empty, the URL path segment
is compared instead and a mismatch is likewise rejected with 403 and no
dispatch; with no secret configured authentication is skipped entirely (the
response does not depend on header or path). The amendment: the source
tests the header with Python truthiness, so a present-but-empty header
falls through to the path check instead of being rejected. -/
theorem C6_webhook_authentication (wenv : WebEnv) (path : String)
    (header : Option String) (s : St) :
    (wenv.webhookSecret ≠ "" →
      ((∀ t, header = some t → t ≠ "" → t ≠ wenv.webhookSecret →
          (webhook_endpoint wenv path header s).status = 403 ∧
          (webhook_endpoint wenv path header s).dispatched = false ∧
          (webhook_endpoint wenv path header s).finalSt = s) ∧
        (truthyStr header = false → path ≠ wenv.webhookSecret →
          (webhook_endpoint wenv path header s).status = 403 ∧
          (webhook_endpoint wenv path header s).dispatched = false ∧
          (webhook_endpoint wenv path header s).finalSt = s))) ∧
    (wenv.webhookSecret = "" →
      ∀ p2 h2, webhook_endpoint wenv path header s = webhook_endpoint wenv p2 h2 s) := by
  constructor
  · intro hsec
    constructor
    · intro t ht hne hneq
      subst ht
      unfold webhook_endpoint webhook_auth
      have htr : truthyStr (some t) = true := by
        unfold truthyStr
        simp [hne]
      rw [if_neg hsec, if_pos htr, if_pos (by simp [hneq])]
      exact ⟨rfl, rfl, rfl⟩
    · intro htr hneq
      unfold webhook_endpoint webhook_auth
      rw [if_neg hsec, if_neg (by simp [htr]), if_pos ⟨hneq, hsec⟩]
      exact ⟨rfl, rfl, rfl⟩
  · intro hsec p2 h2
    unfold webhook_endpoint webhook_auth
    rw [if_pos hsec, if_pos hsec]

/-- Witness for C6: a wrong non-empty header is rejected, a wrong path with
no header is rejected, and with no secret the response ignores both. -/
theorem C6_witness :
    ((webhook_endpoint ⟨"s3cr3t", Except.ok emptyUpd, true, benignEnv⟩ "x"
        (some "wrong") st0).status = 403 ∧
      (webhook_endpoint ⟨"s3cr3t", Except.ok emptyUpd, true, benignEnv⟩ "x"
        (some "wrong") st0).dispatched = false) ∧
    ((webhook_endpoint ⟨"s3cr3t", Except.ok emptyUpd, true, benignEnv⟩ "x" none st0).status = 403) ∧
    webhook_endpoint ⟨"", Except.ok emptyUpd, true, benignEnv⟩ "a" (some "b") st0 =
      webhook_endpoint ⟨"", Except.ok emptyUpd, true, benignEnv⟩ "c" none st0 := by
  have h1 := (C6_webhook_authentication ⟨"s3cr3t", Except.ok emptyUpd, true, benignEnv⟩
    "x" (some "wrong") st0).1 (by decide)
  have h2 := (C6_webhook_authentication ⟨"s3cr3t", Except.ok emptyUpd, true, benignEnv⟩
    "x" none st0).1 (by decide)
  have h3 := (C6_webhook_authentication ⟨"", Except.ok emptyUpd, true, benignEnv⟩
    "a" (some "b") st0).2 rfl "c" none
  have ha := h1.1 "wrong" rfl (by decide) (by decide)
  have hb := h2.2 (by decide) (by decide)
  exact ⟨⟨ha.1, ha.2.1⟩, hb.1, h3⟩

/-- Counterexample to C6 as stated: a header that is present but empty
differs from the configured secret, yet the request is accepted and
dispatched whenever the path matches, because the source guards the header
check with Python truthiness (`if header_token:`), under which an empty
header counts as absent. -/
theorem C6_counterexample :
    (some "" : Option String) ≠ none ∧ "" ≠ "s3cr3t" ∧
    (webhook_endpoint ⟨"s3cr3t", Except.ok emptyUpd, true, benignEnv⟩ "s3cr3t"
      (some "") st0).status = 200 ∧
    (webhook_endpoint ⟨"s3cr3t", Except.ok emptyUpd, true, benignEnv⟩ "s3cr3t"
      (some "") st0).dispatched = true := by
  refine ⟨by decide, by decide, ?_, ?_⟩ <;> rfl

/-! ### Claim C7: 403 and 400 are the only non-success statuses -/

/-- Claim C7 — after authentication passes: a body that fails to decode
yields 400 with no dispatch; a decoded body yields 200 with `ok` body and a
dispatch (scheduled, or run inline exactly when scheduling fails); and over
all inputs the endpoint only ever answers 200, 403 or 400. -/
theorem C7_webhook_status_surface (wenv : WebEnv) (path : String)
    (header : Option String) (s : St) :
    (webhook_auth wenv.webhookSecret path header = AuthOutcome.pass →
      ((∀ e, wenv.body = Except.error e →
          (webhook_endpoint wenv path header s).status = 400 ∧
          (webhook_endpoint wenv path header s).dispatched = false ∧
          (webhook_endpoint wenv path header s).finalSt = s) ∧
        (∀ payload, wenv.body = Except.ok payload →
          (webhook_endpoint wenv path header s).status = 200 ∧
          (webhook_endpoint wenv path header s).okBody = true ∧
          (webhook_endpoint wenv path header s).dispatched = true) ∧
        (∀ payload, wenv.body = Except.ok payload → wenv.schedulingOk = false →
          (webhook_endpoint wenv path header s).ranInline = true ∧
          (webhook_endpoint wenv path header s).finalSt = (process_update wenv.denv payload s).2))) ∧
    ((webhook_endpoint wenv path header s).status = 200 ∨
      (webhook_endpoint wenv path header s).status = 403 ∨
      (webhook_endpoint wenv path header s).status = 400) := by
  unfold webhook_endpoint
  rcases hauth : webhook_auth wenv.webhookSecret path header with _ | _ | _
  · constructor
    · intro _
      rcases hbody : wenv.body with e | payload
      · refine ⟨?_, ?_, ?_⟩
        · intro e' _
          exact ⟨rfl, rfl, rfl⟩
        · intro payload hp
          exact Except.noConfusion hp
        · intro payload hp
          exact Except.noConfusion hp
      · refine ⟨?_, ?_, ?_⟩
        · intro e' he'
          exact Except.noConfusion he'
        · intro payload2 hp
          rw [Except.ok.injEq] at hp
          subst hp
          rcases hsch : wenv.schedulingOk with _ | _
          · exact ⟨rfl, rfl, rfl⟩
          · exact ⟨rfl, rfl, rfl⟩
        · intro payload2 hp hsch
          rw [Except.ok.injEq] at hp
          subst hp
          rw [hsch]
          exact ⟨rfl, rfl⟩
    · rcases hbody : wenv.body with e | payload
      · right; right; rfl
      · rcases hsch : wenv.schedulingOk with _ | _
        · left; rfl
        · left; rfl
  · constructor
    · intro hpass
      cases hpass
    · right; left; rfl
  · constructor
    · intro hpass
      cases hpass
    · right; left; rfl

/-- Witness for C7: malformed JSON yields 400 with no dispatch; a decoded
body with failing scheduling yields 200 and an inline dispatch. -/
theorem C7_witness :
    ((webhook_endpoint ⟨"", Except.error "invalid json body", true, benignEnv⟩ "" none st0).status = 400 ∧
      (webhook_endpoint ⟨"", Except.error "invalid json body", true, benignEnv⟩ "" none st0).dispatched = false) ∧
    ((webhook_endpoint ⟨"", Except.ok updTextOnly, false, benignEnv⟩ "" none st0).status = 200 ∧
      (webhook_endpoint ⟨"", Except.ok updTextOnly, false, benignEnv⟩ "" none st0).ranInline = true ∧
      (webhook_endpoint ⟨"", Except.ok updTextOnly, false, benignEnv⟩ "" none st0).finalSt =
        (process_update benignEnv updTextOnly st0).2) := by
  have h1 := (C7_webhook_status_surface ⟨"", Except.error "invalid json body", true, benignEnv⟩
    "" none st0).1 rfl
  have h2 := (C7_webhook_status_surface ⟨"", Except.ok updTextOnly, false, benignEnv⟩
    "" none st0).1 rfl
  have ha := h1.1 "invalid json body" rfl
  have hb := h2.2.1 updTextOnly rfl
  have hc := h2.2.2 updTextOnly rfl rfl
  exact ⟨⟨ha.1, ha.2.1⟩, hb.1, hc.1, hc.2⟩

/-! ### Claim C8: retention cleanup threshold and selection -/

theorem removeScan_spec (logDir : String) (cutoff : Int) (rr : String → Bool)
    (hrr : ∀ p, rr p = false) (files : List LogFileEnt) :
    removeScan logDir cutoff rr files =
      ((files.filter (fun f => log_considered f.name && decide (f.mtime < cutoff))).map
          (fun f => os_path_join logDir f.name),
        files.filter (fun f => !(log_considered f.name && decide (f.mtime < cutoff))),
        []) := by
  induction files with
  | nil => rfl
  | cons f rest ih =>
    unfold removeScan
    rw [ih]
    by_cases hc : log_considered f.name = true
    · by_cases hm : f.mtime < cutoff
      · simp [List.filter_cons, hc, hm, hrr]
      · simp [List.filter_cons, hc, hm]
    · have hc' : log_considered f.name = false := by
        simpa using hc
      simp [List.filter_cons, hc']

/-- Claim C8 (amended) — the cleanup invoked by the monthly loop runs with a
31-day threshold (passed explicitly at the call site; the function's own
default parameter is 35 days, see the counterexample): it removes exactly
the considered log artifacts whose modification time is strictly older than
`now - 31 * 24 * 3600`, keeps the rest, and logs either the removed count
and paths or that none were found. -/
theorem C8_retention_cleanup (logDir : String) (now : Int) (files : List LogFileEnt)
    (rr : String → Bool) (hrr : ∀ p, rr p = false) :
    (monthly_cleanup_run logDir now files rr).removed =
      (files.filter (fun f => log_considered f.name && decide (f.mtime < now - 31 * 24 * 3600))).map
        (fun f => os_path_join logDir f.name) ∧
    (monthly_cleanup_run logDir now files rr).remaining =
      files.filter (fun f => !(log_considered f.name && decide (f.mtime < now - 31 * 24 * 3600))) ∧
    (monthly_cleanup_run logDir now files rr).logs =
      [if ((files.filter (fun f => log_considered f.name && decide (f.mtime < now - 31 * 24 * 3600))).map
            (fun f => os_path_join logDir f.name)).isEmpty
        then "No old log files to remove"
        else "Removed " ++
          natStr ((files.filter (fun f => log_considered f.name && decide (f.mtime < now - 31 * 24 * 3600))).map
            (fun f => os_path_join logDir f.name)).length ++
          " old log files: " ++
          joinCommaSp ((files.filter (fun f => log_considered f.name && decide (f.mtime < now - 31 * 24 * 3600))).map
            (fun f => os_path_join logDir f.name))] := by
  unfold monthly_cleanup_run _remove_old_logs
  dsimp only
  rw [removeScan_spec logDir (now - 31 * 24 * 3600) rr hrr files]
  exact ⟨rfl, rfl, rfl⟩

/-- Witness for C8 at the specified scenario: files aged 10, 40 and 400
days under the monthly 31-day run — exactly the 40- and 400-day files are
removed, the 10-day file stays, and the removals are logged. -/
theorem C8_witness :
    (monthly_cleanup_run "./logs" 40000000
        [⟨"bot.log.2025-09-02", 40000000 - 10 * 24 * 3600⟩,
          ⟨"bot.log.2025-08-03", 40000000 - 40 * 24 * 3600⟩,
          ⟨"bot.log.2024-08-08", 40000000 - 400 * 24 * 3600⟩]
        (fun _ => false)).removed =
      ["./logs/bot.log.2025-08-03", "./logs/bot.log.2024-08-08"] ∧
    (monthly_cleanup_run "./logs" 40000000
        [⟨"bot.log.2025-09-02", 40000000 - 10 * 24 * 3600⟩,
          ⟨"bot.log.2025-08-03", 40000000 - 40 * 24 * 3600⟩,
          ⟨"bot.log.2024-08-08", 40000000 - 400 * 24 * 3600⟩]
        (fun _ => false)).remaining =
      [⟨"bot.log.2025-09-02", 40000000 - 10 * 24 * 3600⟩] ∧
    (monthly_cleanup_run "./logs" 40000000
        [⟨"bot.log.2025-09-02", 40000000 - 10 * 24 * 3600⟩,
          ⟨"bot.log.2025-08-03", 40000000 - 40 * 24 * 3600⟩,
          ⟨"bot.log.2024-08-08", 40000000 - 400 * 24 * 3600⟩]
        (fun _ => false)).logs =
      ["Removed 2 old log files: ./logs/bot.log.2025-08-03, ./logs/bot.log.2024-08-08"] := by
  have h := C8_retention_cleanup "./logs" 40000000
    [⟨"bot.log.2025-09-02", 40000000 - 10 * 24 * 3600⟩,
      ⟨"bot.log.2025-08-03", 40000000 - 40 * 24 * 3600⟩,
      ⟨"bot.log.2024-08-08", 40000000 - 400 * 24 * 3600⟩]
    (fun _ => false) (fun _ => rfl)
  refine ⟨?_, ?_, ?_⟩
  · rw [h.1]
    decide
  · rw [h.2.1]
    decide
  · rw [h.2.2]
    decide

/-- Counterexample to C8 as stated: the default of the age threshold is 35
days, not 31 — a call of `_remove_old_logs` with the parameter left at its
default keeps a file that is 33 days old, although 33 days is strictly
older than the claimed 31-day default threshold. -/
theorem C8_counterexample :
    (remove_old_logs_default "./logs" 40000000
        [⟨"bot.log.2025-09-09", 40000000 - 33 * 24 * 3600⟩] (fun _ => false)).removed = [] ∧
    (40000000 - 33 * 24 * 3600 : Int) < 40000000 - 31 * 24 * 3600 ∧
    REMOVE_OLD_LOGS_DEFAULT_DAYS ≠ 31 := by
  refine ⟨rfl, by decide, by decide⟩

/-! ### Claim C10: the byte buffer takes precedence over the path -/

/-- Claim C10 — when both a byte buffer and a path are supplied,
`send_photo` and `send_video` build the request from the bytes and never
open the path; a request built from a path can only arise when the byte
buffer is absent (and then the opened path is the supplied one). -/
theorem C10_bytes_over_path (chat : Int) (p : String) (b : List Nat) (cap : Option String) :
    send_photo chat (some p) (some b) cap =
      Except.ok ⟨"sendPhoto", chat, MediaPayload.fromBytes b "photo.jpg", cap, none⟩ ∧
    send_video chat (some p) (some b) cap =
      Except.ok ⟨"sendVideo", chat, MediaPayload.fromBytes b "video.mp4", cap, none⟩ ∧
    (∀ pp bb req, send_photo chat pp bb cap = Except.ok req →
      ∀ q, req.openedPath = some q → bb = none ∧ pp = some q) ∧
    (∀ pp bb req, send_video chat pp bb cap = Except.ok req →
      ∀ q, req.openedPath = some q → bb = none ∧ pp = some q) := by
  refine ⟨rfl, rfl, ?_, ?_⟩
  · intro pp bb req h q hq
    cases bb with
    | some b2 =>
      unfold send_photo at h
      rw [Except.ok.injEq] at h
      subst h
      exact Option.noConfusion hq
    | none =>
      cases pp with
      | none => exact Except.noConfusion h
      | some p2 =>
        unfold send_photo at h
        dsimp only at h
        by_cases hp2 : p2 = ""
        · rw [if_neg (by simp [hp2])] at h
          exact Except.noConfusion h
        · rw [if_pos (by simp [hp2])] at h
          rw [Except.ok.injEq] at h
          subst h
          rw [Option.some.injEq] at hq
          subst hq
          exact ⟨rfl, rfl⟩
  · intro pp bb req h q hq
    cases bb with
    | some b2 =>
      unfold send_video at h
      rw [Except.ok.injEq] at h
      subst h
      exact Option.noConfusion hq
    | none =>
      cases pp with
      | none => exact Except.noConfusion h
      | some p2 =>
        unfold send_video at h
        dsimp only at h
        by_cases hp2 : p2 = ""
        · rw [if_neg (by simp [hp2])] at h
          exact Except.noConfusion h
        · rw [if_pos (by simp [hp2])] at h
          rw [Except.ok.injEq] at h
          subst h
          rw [Option.some.injEq] at hq
          subst hq
          exact ⟨rfl, rfl⟩

/-- Witness for C10: with both sources supplied the built request carries
the bytes and opens no path; a path-built request forces an absent byte
buffer. -/
theorem C10_witness :
    send_photo 1 (some "a.jpg") (some [9, 9]) none =
      Except.ok ⟨"sendPhoto", 1, MediaPayload.fromBytes [9, 9] "photo.jpg", none, none⟩ ∧
    ((none : Option (List Nat)) = none ∧ (some "a.jpg" : Option String) = some "a.jpg") :=
  ⟨(C10_bytes_over_path 1 "a.jpg" [9, 9] none).1,
    (C10_bytes_over_path 1 "a.jpg" [9, 9] none).2.2.1 (some "a.jpg") none
      ⟨"sendPhoto", 1, MediaPayload.fromPath "a.jpg", none, some "a.jpg"⟩ rfl "a.jpg" rfl⟩

end Botlib
